import Mathlib

/-!
Verification of the orchestration engine of `claude-code-swarm`.

The Python sources under `orchestrator/` are shallowly embedded below:

* `db.py`            — the SQLite store becomes a `Store` of four row lists;
  each CRUD helper becomes a pure function on `Store`.  SQL `UPDATE ... WHERE
  pk = ?` becomes a map over the list that rewrites every matching row (the
  primary key makes that at most one row in practice).
* `stream_parser.py` — a `Json` value type with a fuel-indexed decoder
  standing in for the Python `json.loads`, and `parse_stream_line` returning
  `Except PyError (Option AgentEvent)`: the `.error` constructor marks the
  places where the Python raises.
* `agent_pool.py`    — `dispatch_implement`, the `_monitor_agent` body split
  into its timeout branch and its process-finished branch, and
  `resume_rate_limited_agent`.  Results of external subprocesses (worktree
  creation, `claude` spawn, `gh` queries during implement reconciliation)
  enter as explicit oracle records; the database and in-memory logic is
  translated line by line.
* `pr_monitor.py`    — `_poll_prs` restricted to the handling of one issue
  row, with the forge answers (`gh` CLI) as an oracle record.

Wall-clock instants are modelled as a single `Nat` (`now`) threaded to every
operation that records a timestamp, covering both `_now()` strings and
`datetime.utcnow().isoformat()`.
-/

/-- Row of the `issues` table (schema in `db.py`). -/
structure IssueRow where
  issue_number : Nat
  title : String
  status : String := "pending"
  agent_id : Option String := none
  pr_number : Option Nat := none
  attempts : Nat := 0
  created_at : Nat := 0
  updated_at : Nat := 0
deriving DecidableEq, Repr

/-- Row of the `agents` table, including the columns added by migration
(`pid`, `session_id`, `resume_count`, `rate_limited_at`). `resume_count`
stays `Option` because rows predating the migration carry NULL, which
`agent_pool.py` reads through `or 0`. -/
structure AgentRow where
  agent_id : String
  issue_number : Nat
  pr_number : Option Nat := none
  agent_type : String
  status : String := "running"
  worktree_path : String
  branch_name : String
  pid : Option Nat := none
  turns_used : Nat := 0
  started_at : Nat := 0
  finished_at : Option Nat := none
  error_message : Option String := none
  session_id : Option String := none
  resume_count : Option Nat := some 0
  rate_limited_at : Option Nat := none
deriving DecidableEq, Repr

/-- Row of the `agent_events` table. -/
structure EventRow where
  id : Nat
  agent_id : String
  event_type : String
  event_data : String
  timestamp : Nat
deriving DecidableEq, Repr

/-- Row of the `pr_reviews` table. -/
structure PrReviewRow where
  id : Nat
  pr_number : Nat
  iteration : Nat
  comments_count : Nat
  comments_json : Option String := none
  agent_id : Option String := none
  status : String := "pending"
  created_at : Nat := 0
deriving DecidableEq, Repr

/-- The SQLite database of `db.py` as four tables. -/
structure Store where
  issues : List IssueRow := []
  agents : List AgentRow := []
  agent_events : List EventRow := []
  pr_reviews : List PrReviewRow := []
deriving DecidableEq, Repr

/-- Runtime configuration values read from the environment in `config.py`
(the defaults are the documented ones). -/
structure Config where
  AGENT_TIMEOUT_SECONDS : Nat := 1800
  MAX_PR_FIX_RETRIES : Nat := 5
  MAX_RATE_LIMIT_RESUMES : Nat := 5
deriving DecidableEq, Repr

/-- `db.upsert_issue`: INSERT with `ON CONFLICT(issue_number) DO UPDATE SET
title=excluded.title, updated_at=excluded.updated_at` — on conflict only
`title` and `updated_at` are rewritten. -/
def upsert_issue (s : Store) (issue_number : Nat) (title : String)
    (status : String) (now : Nat) : Store :=
  if s.issues.any (fun r => r.issue_number = issue_number) then
    { s with issues := s.issues.map fun r =>
        if r.issue_number = issue_number then
          { r with title := title, updated_at := now }
        else r }
  else
    { s with issues := s.issues ++
        [{ issue_number := issue_number, title := title, status := status,
           created_at := now, updated_at := now }] }

/-- `db.get_issue`: `SELECT * FROM issues WHERE issue_number = ?` (fetchone). -/
def get_issue (s : Store) (issue_number : Nat) : Option IssueRow :=
  s.issues.find? (fun r => r.issue_number = issue_number)

/-- `db.get_issues_by_status`. -/
def get_issues_by_status (s : Store) (status : String) : List IssueRow :=
  s.issues.filter (fun r => r.status = status)

/-- The keyword arguments a call site passes to `db.update_issue`; an absent
field means the column is not named in the UPDATE. -/
structure IssueUpdate where
  status : Option String := none
  agent_id : Option String := none
  pr_number : Option Nat := none
  attempts : Option Nat := none
deriving DecidableEq, Repr

def apply_issue_update (u : IssueUpdate) (now : Nat) (r : IssueRow) : IssueRow :=
  { r with
    status := u.status.getD r.status,
    agent_id := match u.agent_id with | some a => some a | none => r.agent_id,
    pr_number := match u.pr_number with | some p => some p | none => r.pr_number,
    attempts := u.attempts.getD r.attempts,
    updated_at := now }

/-- `db.update_issue`: sets the passed columns plus `updated_at` on every row
matching the key (zero rows when the issue is absent). -/
def update_issue (s : Store) (issue_number : Nat) (u : IssueUpdate)
    (now : Nat) : Store :=
  { s with issues := s.issues.map fun r =>
      if r.issue_number = issue_number then apply_issue_update u now r else r }

/-- `db.create_agent`: INSERT with status `running`; `turns_used` takes the
schema default 0, the migrated columns their defaults. -/
def create_agent (s : Store) (agent_id : String) (issue_number : Nat)
    (agent_type : String) (worktree_path : String) (branch_name : String)
    (pr_number : Option Nat) (pid : Option Nat) (now : Nat) : Store :=
  { s with agents := s.agents ++
      [{ agent_id := agent_id, issue_number := issue_number,
         pr_number := pr_number, agent_type := agent_type,
         worktree_path := worktree_path, branch_name := branch_name,
         pid := pid, started_at := now }] }

/-- `db.get_agent`. -/
def get_agent (s : Store) (agent_id : String) : Option AgentRow :=
  s.agents.find? (fun r => r.agent_id = agent_id)

/-- `db.get_running_agents`. -/
def get_running_agents (s : Store) : List AgentRow :=
  s.agents.filter (fun r => r.status = "running")

/-- Keyword arguments of `db.update_agent` as used across the code base.
`error_message` is doubly optional: `finish_agent` always names the column
and may write NULL into it. -/
structure AgentUpdate where
  status : Option String := none
  finished_at : Option Nat := none
  error_message : Option (Option String) := none
  turns_used : Option Nat := none
  session_id : Option String := none
  resume_count : Option Nat := none
  rate_limited_at : Option Nat := none
  pr_number : Option Nat := none
deriving DecidableEq, Repr

def apply_agent_update (u : AgentUpdate) (r : AgentRow) : AgentRow :=
  { r with
    status := u.status.getD r.status,
    finished_at := match u.finished_at with | some t => some t | none => r.finished_at,
    error_message := match u.error_message with | some e => e | none => r.error_message,
    turns_used := u.turns_used.getD r.turns_used,
    session_id := match u.session_id with | some i => some i | none => r.session_id,
    resume_count := match u.resume_count with | some c => some c | none => r.resume_count,
    rate_limited_at := match u.rate_limited_at with | some t => some t | none => r.rate_limited_at,
    pr_number := match u.pr_number with | some p => some p | none => r.pr_number }

/-- `db.update_agent`. -/
def update_agent (s : Store) (agent_id : String) (u : AgentUpdate) : Store :=
  { s with agents := s.agents.map fun r =>
      if r.agent_id = agent_id then apply_agent_update u r else r }

/-- `db.finish_agent`: status + `finished_at = now` + `error_message` (NULL
when the caller passed none). -/
def finish_agent (s : Store) (agent_id : String) (status : String)
    (error_message : Option String) (now : Nat) : Store :=
  update_agent s agent_id
    { status := some status, finished_at := some now,
      error_message := some error_message }

/-- `db.insert_event` (AUTOINCREMENT id modelled as list length + 1). -/
def insert_event (s : Store) (agent_id : String) (event_type : String)
    (event_data : String) (now : Nat) : Store :=
  { s with agent_events := s.agent_events ++
      [{ id := s.agent_events.length + 1, agent_id := agent_id,
         event_type := event_type, event_data := event_data,
         timestamp := now }] }

/-- `db.get_agent_turn_count`: `COUNT(*)` of the rows of the agent with
event type `assistant`. -/
def get_agent_turn_count (s : Store) (agent_id : String) : Nat :=
  (s.agent_events.filter
    (fun e => e.agent_id = agent_id ∧ e.event_type = "assistant")).length

/-- `db.create_pr_review`. -/
def create_pr_review (s : Store) (pr_number : Nat) (iteration : Nat)
    (comments_count : Nat) (comments_json : Option String) (now : Nat) : Store :=
  { s with pr_reviews := s.pr_reviews ++
      [{ id := s.pr_reviews.length + 1, pr_number := pr_number,
         iteration := iteration, comments_count := comments_count,
         comments_json := comments_json, created_at := now }] }

/-- `db.get_pr_reviews`: all review iterations recorded for a PR. -/
def get_pr_reviews (s : Store) (pr_number : Nat) : List PrReviewRow :=
  s.pr_reviews.filter (fun r => r.pr_number = pr_number)

/-- The world the pool acts on: the store plus the set of worktree paths
currently present on disk (`worktree.py` creates and removes them). -/
structure World where
  store : Store
  worktrees : List String := []
deriving DecidableEq, Repr

/-- `worktree.cleanup_worktree`: `git worktree remove <path> --force`. -/
def cleanupWorktree (path : String) (w : World) : World :=
  { w with worktrees := w.worktrees.filter (fun p => p ≠ path) }

/-- Decoded JSON values (the result of Python `json.loads`).  Numeric
literals keep their source token: none of the embedded code does arithmetic
on them, and Python float formatting is out of scope. -/
inductive Json where
  | null
  | bool (b : Bool)
  | num (tok : String)
  | str (s : String)
  | arr (xs : List Json)
  | obj (kvs : List (String × Json))

/-- Python `value == "literal"`: true exactly when the decoded value is that
string (every `==` in `stream_parser.py` compares against a string literal). -/
def jIsStr (j : Json) (s : String) : Bool :=
  match j with
  | .str t => t = s
  | _ => false

/-- Dict lookup (`d[k]` / `d.get(k)` on a dict). -/
def jlookup (kvs : List (String × Json)) (k : String) : Option Json :=
  (kvs.find? (fun kv => kv.1 = k)).map (fun kv => kv.2)

/-- Insertion with Python-dict semantics: a repeated key keeps its first
position and takes the newest value. -/
def objInsert (kvs : List (String × Json)) (k : String) (v : Json) :
    List (String × Json) :=
  if kvs.any (fun kv => kv.1 = k) then
    kvs.map (fun kv => if kv.1 = k then (k, v) else kv)
  else kvs ++ [(k, v)]


/-- Python `str.strip()` (whitespace at both ends), written over the char
list so that it reduces in the kernel. -/
def stripChars (cs : List Char) : List Char :=
  ((cs.dropWhile Char.isWhitespace).reverse.dropWhile Char.isWhitespace).reverse

def pyStrip (s : String) : String :=
  String.mk (stripChars s.toList)

/-- Python `s[:n]` on a string (by code points). -/
def strTake (s : String) (n : Nat) : String :=
  String.mk (s.toList.take n)

/-- Python `str.lower()` (ASCII; the patterns matched are ASCII). -/
def strLower (s : String) : String :=
  String.mk (s.toList.map Char.toLower)

def lbraceChar : Char := Char.ofNat 123

def rbraceChar : Char := Char.ofNat 125

def skipWs : List Char → List Char
  | c :: cs =>
    if c = ' ' ∨ c = '\t' ∨ c = '\n' ∨ c = '\r' then skipWs cs else c :: cs
  | [] => []

def hexVal? (c : Char) : Option Nat :=
  if '0' ≤ c ∧ c ≤ '9' then some (c.toNat - 48)
  else if 'a' ≤ c ∧ c ≤ 'f' then some (c.toNat - 87)
  else if 'A' ≤ c ∧ c ≤ 'F' then some (c.toNat - 55)
  else none

/-- Body of a JSON string literal (after the opening quote).  Mirrors the
strict decoder: raw control characters are rejected, the standard escapes
and `\uXXXX` (with surrogate-pair combination) are recognised. -/
def pStringChars : Nat → List Char → Option (List Char × List Char)
  | 0, _ => none
  | Nat.succ fuel, cs =>
    match cs with
    | [] => none
    | '"' :: rest => some ([], rest)
    | '\\' :: rest =>
      match rest with
      | 'u' :: h1 :: h2 :: h3 :: h4 :: rest2 =>
        match hexVal? h1, hexVal? h2, hexVal? h3, hexVal? h4 with
        | some v1, some v2, some v3, some v4 =>
          let code := v1 * 4096 + v2 * 256 + v3 * 16 + v4
          if 0xD800 ≤ code ∧ code < 0xDC00 then
            match rest2 with
            | '\\' :: 'u' :: g1 :: g2 :: g3 :: g4 :: rest3 =>
              match hexVal? g1, hexVal? g2, hexVal? g3, hexVal? g4 with
              | some u1, some u2, some u3, some u4 =>
                let lo := u1 * 4096 + u2 * 256 + u3 * 16 + u4
                if 0xDC00 ≤ lo ∧ lo < 0xE000 then
                  match pStringChars fuel rest3 with
                  | some (s, r) =>
                    some (Char.ofNat (0x10000 + (code - 0xD800) * 0x400 + (lo - 0xDC00)) :: s, r)
                  | none => none
                else
                  match pStringChars fuel rest2 with
                  | some (s, r) => some (Char.ofNat code :: s, r)
                  | none => none
              | _, _, _, _ =>
                match pStringChars fuel rest2 with
                | some (s, r) => some (Char.ofNat code :: s, r)
                | none => none
            | _ =>
              match pStringChars fuel rest2 with
              | some (s, r) => some (Char.ofNat code :: s, r)
              | none => none
          else
            match pStringChars fuel rest2 with
            | some (s, r) => some (Char.ofNat code :: s, r)
            | none => none
        | _, _, _, _ => none
      | c :: rest2 =>
        let esc : Option Char :=
          if c = '"' then some '"'
          else if c = '\\' then some '\\'
          else if c = '/' then some '/'
          else if c = 'b' then some (Char.ofNat 8)
          else if c = 'f' then some (Char.ofNat 12)
          else if c = 'n' then some '\n'
          else if c = 'r' then some '\r'
          else if c = 't' then some '\t'
          else none
        match esc with
        | some e =>
          match pStringChars fuel rest2 with
          | some (s, r) => some (e :: s, r)
          | none => none
        | none => none
      | [] => none
    | c :: rest =>
      if c.toNat < 0x20 then none
      else
        match pStringChars fuel rest with
        | some (s, r) => some (c :: s, r)
        | none => none

/-- Optional exponent part of a JSON number; a bare `e` with no digits makes
the whole document undecodable (the scanner stops before the `e` and the
leftover text then fails the parse, which is observably the same). -/
def pExpPart (mant : List Char) (cs : List Char) : Option (String × List Char) :=
  match cs with
  | e :: rr =>
    if e = 'e' ∨ e = 'E' then
      let (sgn, rr2) := match rr with
        | s :: rrr => if s = '+' ∨ s = '-' then ([s], rrr) else (([] : List Char), rr)
        | [] => (([] : List Char), rr)
      let (es, rr3) := rr2.span Char.isDigit
      if es = [] then none
      else some (String.mk (mant ++ e :: (sgn ++ es)), rr3)
    else some (String.mk mant, cs)
  | [] => some (String.mk mant, cs)

/-- A JSON number token: optional sign, integer part without leading zeros,
optional fraction, optional exponent. -/
def pNumber (cs : List Char) : Option (String × List Char) :=
  let (sign, cs1) := match cs with
    | '-' :: r => ([('-' : Char)], r)
    | _ => (([] : List Char), cs)
  match cs1 with
  | c :: _ =>
    if c.isDigit then
      let (ds, r1) := cs1.span Char.isDigit
      if 1 < ds.length ∧ ds.headI = '0' then none
      else
        match r1 with
        | '.' :: rr =>
          let (fs, r2) := rr.span Char.isDigit
          if fs = [] then none
          else pExpPart (sign ++ ds ++ '.' :: fs) r2
        | _ => pExpPart (sign ++ ds) r1
    else none
  | [] => none

def dropLit (lit : List Char) (cs : List Char) : Option (List Char) :=
  if cs.take lit.length = lit then some (cs.drop lit.length) else none

mutual

/-- One JSON value.  Fuel-indexed recursive descent; the caller supplies
more fuel than any input of that length can consume. -/
def pVal (fuel : Nat) (cs : List Char) : Option (Json × List Char) :=
  match fuel with
  | 0 => none
  | Nat.succ fuel =>
    let cs := skipWs cs
    match cs with
    | [] => none
    | c :: rest =>
      if c = '"' then
        match pStringChars (rest.length + 1) rest with
        | some (s, r) => some (.str (String.mk s), r)
        | none => none
      else if c = '[' then
        let rest2 := skipWs rest
        match rest2 with
        | ']' :: r => some (.arr [], r)
        | _ =>
          match pArrItems fuel rest2 with
          | some (xs, r) => some (.arr xs, r)
          | none => none
      else if c = lbraceChar then
        let rest2 := skipWs rest
        match rest2 with
        | d :: r =>
          if d = rbraceChar then some (.obj [], r)
          else
            match pObjItems fuel [] rest2 with
            | some (kvs, r2) => some (.obj kvs, r2)
            | none => none
        | [] => none
      else
        match dropLit "null".toList cs with
        | some r => some (.null, r)
        | none =>
        match dropLit "true".toList cs with
        | some r => some (.bool true, r)
        | none =>
        match dropLit "false".toList cs with
        | some r => some (.bool false, r)
        | none =>
        match dropLit "NaN".toList cs with
        | some r => some (.num "NaN", r)
        | none =>
        match dropLit "Infinity".toList cs with
        | some r => some (.num "Infinity", r)
        | none =>
        match dropLit "-Infinity".toList cs with
        | some r => some (.num "-Infinity", r)
        | none =>
        match pNumber cs with
        | some (tok, r) => some (.num tok, r)
        | none => none

/-- Comma-separated array items up to the closing bracket. -/
def pArrItems (fuel : Nat) (cs : List Char) : Option (List Json × List Char) :=
  match fuel with
  | 0 => none
  | Nat.succ fuel =>
    match pVal fuel cs with
    | none => none
    | some (v, r) =>
      let r := skipWs r
      match r with
      | ',' :: r2 =>
        match pArrItems fuel r2 with
        | some (vs, r3) => some (v :: vs, r3)
        | none => none
      | ']' :: r2 => some ([v], r2)
      | _ => none

/-- Comma-separated object members up to the closing brace, accumulating
with dict semantics. -/
def pObjItems (fuel : Nat) (acc : List (String × Json)) (cs : List Char) :
    Option (List (String × Json) × List Char) :=
  match fuel with
  | 0 => none
  | Nat.succ fuel =>
    let cs := skipWs cs
    match cs with
    | c :: rest =>
      if c = '"' then
        match pStringChars (rest.length + 1) rest with
        | some (k, r) =>
          let r := skipWs r
          match r with
          | ':' :: r2 =>
            match pVal fuel r2 with
            | some (v, r3) =>
              let acc := objInsert acc (String.mk k) v
              let r3 := skipWs r3
              match r3 with
              | ',' :: r4 => pObjItems fuel acc r4
              | d :: r4 => if d = rbraceChar then some (acc, r4) else none
              | [] => none
            | none => none
          | _ => none
        | none => none
      else none
    | [] => none

end

/-- Python `json.loads`: decode one document, requiring only whitespace
after it.  `none` is `json.JSONDecodeError`. -/
def json_loads (s : String) : Option Json :=
  let cs := s.toList
  match pVal (2 * cs.length + 4) cs with
  | some (v, rest) => if skipWs rest = [] then some v else none
  | none => none

def hexDigitChar (n : Nat) : Char :=
  if n < 10 then Char.ofNat (48 + n) else Char.ofNat (87 + n)

def hex4 (n : Nat) : String :=
  String.mk [hexDigitChar (n / 4096 % 16), hexDigitChar (n / 256 % 16),
             hexDigitChar (n / 16 % 16), hexDigitChar (n % 16)]

def uEscape (n : Nat) : String :=
  if n < 0x10000 then "\\u" ++ hex4 n
  else
    let m := n - 0x10000
    "\\u" ++ hex4 (0xD800 + m / 0x400) ++ "\\u" ++ hex4 (0xDC00 + m % 0x400)

def escapeChar (c : Char) : String :=
  if c = '"' then "\\\""
  else if c = '\\' then "\\\\"
  else if c = '\n' then "\\n"
  else if c = '\r' then "\\r"
  else if c = '\t' then "\\t"
  else if c.toNat = 8 then "\\b"
  else if c.toNat = 12 then "\\f"
  else if c.toNat < 0x20 ∨ 0x7e < c.toNat then uEscape c.toNat
  else String.singleton c

def escapeString (s : String) : String :=
  s.toList.foldl (fun a c => a ++ escapeChar c) ""

mutual

/-- Python `json.dumps` with its default separators and `ensure_ascii`. -/
def jsonDumps : Json → String
  | .null => "null"
  | .bool true => "true"
  | .bool false => "false"
  | .num t => t
  | .str s => "\"" ++ escapeString s ++ "\""
  | .arr xs => "[" ++ jsonDumpsList xs ++ "]"
  | .obj kvs =>
    String.singleton lbraceChar ++ jsonDumpsKvs kvs ++ String.singleton rbraceChar

def jsonDumpsList : List Json → String
  | [] => ""
  | [x] => jsonDumps x
  | x :: y :: xs => jsonDumps x ++ ", " ++ jsonDumpsList (y :: xs)

def jsonDumpsKvs : List (String × Json) → String
  | [] => ""
  | [kv] => "\"" ++ escapeString kv.1 ++ "\": " ++ jsonDumps kv.2
  | kv :: l :: kvs =>
    "\"" ++ escapeString kv.1 ++ "\": " ++ jsonDumps kv.2 ++ ", " ++ jsonDumpsKvs (l :: kvs)

end

/-- Python `str()` of a decoded JSON value.  Containers are rendered with
`jsonDumps` rather than Python single-quote `repr`; the difference never
reaches any claim (these strings only land in opaque summaries). -/
def pyStr (j : Json) : String :=
  match j with
  | .str s => s
  | .null => "None"
  | .bool true => "True"
  | .bool false => "False"
  | .num t => t
  | j => jsonDumps j

/-- Python truthiness of a decoded JSON value. -/
def pyTruthy (j : Json) : Bool :=
  match j with
  | .null => false
  | .bool b => b
  | .num t => ((t.takeWhile fun c => c ≠ 'e' ∧ c ≠ 'E').toList.any
      fun c => c.isDigit ∧ c ≠ '0') ∨ t = "NaN" ∨ t = "Infinity" ∨ t = "-Infinity"
  | .str s => s ≠ ""
  | .arr xs => !xs.isEmpty
  | .obj kvs => !kvs.isEmpty

/-- The `AgentEvent` dataclass of `stream_parser.py`. -/
structure AgentEvent where
  event_type : String
  summary : String
  raw : Json

/-- Exceptions the embedded Python can raise. -/
inductive PyError
  | attributeError
  | typeError
deriving DecidableEq, Repr

/-- `value.get(k)` — `AttributeError` unless `value` is a dict. -/
def jget (data : Json) (k : String) : Except PyError (Option Json) :=
  match data with
  | .obj kvs => .ok (jlookup kvs k)
  | _ => .error .attributeError

/-- `value.get(k, default)`. -/
def jgetD (data : Json) (k : String) (dflt : Json) : Except PyError Json :=
  match jget data k with
  | .ok v => .ok (v.getD dflt)
  | .error e => .error e

/-- `value[:n]` where a string is expected — `TypeError` otherwise. -/
def pySliceStr (j : Json) (n : Nat) : Except PyError String :=
  match j with
  | .str s => .ok (strTake s n)
  | _ => .error .typeError

/-- `" ".join(text_parts)` — `TypeError` when a part is not a string. -/
def pyJoinSpace (parts : List Json) : Except PyError String :=
  if parts.all (fun p => match p with | .str _ => true | _ => false) then
    .ok (" ".intercalate (parts.map pyStr))
  else .error .typeError

/-- The `for block in content_blocks` body of the assistant branch of
`parse_stream_line`, accumulating `text_parts`. -/
def assistantBlockParts (blocks : List Json) : Except PyError (List Json) :=
  blocks.foldlM (fun acc block =>
    match block with
    | .obj kvs =>
      if jIsStr ((jlookup kvs "type").getD .null) "text" then
        .ok (acc ++ [(jlookup kvs "text").getD (.str "")])
      else if jIsStr ((jlookup kvs "type").getD .null) "tool_use" then do
        let toolName := (jlookup kvs "name").getD (.str "tool")
        let toolInput := (jlookup kvs "input").getD (.obj [])
        if jIsStr toolName "Bash" then do
          let cmd ← pySliceStr ((← jget toolInput "command").getD (.str "")) 80
          pure (acc ++ [.str ("[$ " ++ cmd ++ "]")])
        else if jIsStr toolName "Read" then do
          let fp := (← jget toolInput "file_path").getD (.str "?")
          pure (acc ++ [.str ("[Read " ++ pyStr fp ++ "]")])
        else if jIsStr toolName "Edit" ∨ jIsStr toolName "Write" then do
          let fp := (← jget toolInput "file_path").getD (.str "?")
          pure (acc ++ [.str ("[" ++ pyStr toolName ++ " " ++ pyStr fp ++ "]")])
        else if jIsStr toolName "Skill" then do
          let sk := (← jget toolInput "skill").getD (.str "?")
          pure (acc ++ [.str ("[Skill: " ++ pyStr sk ++ "]")])
        else
          pure (acc ++ [.str ("[" ++ pyStr toolName ++ "]")])
      else if jIsStr ((jlookup kvs "type").getD .null) "thinking" then
        let thinkingText := (jlookup kvs "thinking").getD (.str "")
        if pyTruthy thinkingText then
          .ok (acc ++ [.str ("(thinking) " ++ pyStr thinkingText)])
        else if acc.isEmpty then .ok (acc ++ [.str "(thinking...)"])
        else .ok acc
      else .ok acc
    | .str s => .ok (acc ++ [.str s])
    | _ => .ok acc) []

/-- Dispatch on the decoded line (`parse_stream_line` from the first
`data.get` on).  `data.get("type", "unknown")` raises `AttributeError`
when `data` is not a dict — that is the only statement executed before the
type dispatch. -/
def handleParsed (data : Json) : Except PyError (Option AgentEvent) := do
  let dkvs ← match data with
    | Json.obj kvs => Except.ok kvs
    | _ => Except.error PyError.attributeError
  let msgType := (jlookup dkvs "type").getD (.str "unknown")
  if jIsStr msgType "assistant" then do
    let message := (jlookup dkvs "message").getD (.obj [])
    let content ← jgetD message "content" (.arr [])
    let blocks : List Json ← match content with
      | .arr xs => Except.ok xs
      | .str s => Except.ok (s.toList.map fun c => Json.str (String.singleton c))
      | .obj kvs => Except.ok (kvs.map fun kv => Json.str kv.1)
      | _ => Except.error PyError.typeError
    let parts ← assistantBlockParts blocks
    let text ← pyJoinSpace parts
    pure (some { event_type := "assistant",
                 summary := if text ≠ "" then text else "(thinking...)",
                 raw := data })
  else if jIsStr msgType "tool_use" then do
    let toolName := (jlookup dkvs "tool").getD ((jlookup dkvs "name").getD (.str "unknown"))
    let toolInput := (jlookup dkvs "input").getD (.obj [])
    if jIsStr toolName "Bash" then do
      let cmd ← pySliceStr ((← jget toolInput "command").getD (.str "")) 100
      pure (some { event_type := "tool_use", summary := "Bash: " ++ cmd, raw := data })
    else if jIsStr toolName "Read" then do
      let fp := (← jget toolInput "file_path").getD (.str "?")
      pure (some { event_type := "tool_use", summary := "Read: " ++ pyStr fp, raw := data })
    else if jIsStr toolName "Edit" ∨ jIsStr toolName "Write" then do
      let fp := (← jget toolInput "file_path").getD (.str "?")
      pure (some { event_type := "tool_use",
                   summary := pyStr toolName ++ ": " ++ pyStr fp, raw := data })
    else
      pure (some { event_type := "tool_use",
                   summary := pyStr toolName ++ ": " ++ strTake (jsonDumps toolInput) 100,
                   raw := data })
  else if jIsStr msgType "tool_result" then
    pure (some { event_type := "tool_result", summary := "(tool result)", raw := data })
  else if jIsStr msgType "result" then
    let resultData := (jlookup dkvs "result").getD (.str "")
    let resultText := match resultData with
      | .str s => strTake s 200
      | .obj kvs => strTake (jsonDumps (.obj kvs)) 200
      | _ => ""
    pure (some { event_type := "result",
                 summary := if resultText ≠ "" then resultText else "Agent finished",
                 raw := data })
  else if jIsStr msgType "error" then
    let errorVal := (jlookup dkvs "error").getD (.obj [])
    let errorMsg : String := match errorVal with
      | .obj evs => match jlookup evs "message" with
        | some v => pyStr v
        | none => pyStr (.obj evs)
      | v => pyStr v
    pure (some { event_type := "error", summary := strTake errorMsg 200, raw := data })
  else
    pure (some { event_type := match msgType with | .str s => s | j => pyStr j,
                 summary := strTake (jsonDumps data) 200, raw := data })

/-- `stream_parser.parse_stream_line`.  `.ok none` is the Python `None`;
`.error` marks a raised exception. -/
def parse_stream_line (line : String) : Except PyError (Option AgentEvent) :=
  let l := pyStrip line
  if l = "" then .ok none
  else
    match json_loads l with
    | none => .ok none
    | some data => handleParsed data


/-- Replace the store inside a world. -/
def setStore (w : World) (s : Store) : World :=
  { w with store := s }

/-- `_RATE_LIMIT_PATTERNS` from `agent_pool.py`. -/
def RATE_LIMIT_PATTERNS : List String :=
  ["rate limit", "usage limit", "too many requests", "429",
   "token limit exceeded", "exceeded your", "capacity", "overloaded",
   "try again later", "rate_limit", "throttl"]

/-- Python `needle in hay` on strings. -/
def strContains (hay needle : String) : Bool :=
  decide (needle.toList <:+: hay.toList)

/-- The in-memory fields of an `AgentProcess` that `_monitor_agent` reads
(`agent_pool.py`): identity, task, workspace and the event buffer filled by
the reader thread. -/
structure AgentMem where
  agent_id : String
  issue_number : Nat
  agent_type : String
  worktree_path : String
  pr_number : Option Nat := none
  events : List AgentEvent := []

/-- `AgentPool._is_rate_limit_error`: case-insensitive substring match of the
fixed pattern list against stderr and against the summary of every `error`
event. -/
def _is_rate_limit_error (stderr_output : String) (events : List AgentEvent) : Bool :=
  (RATE_LIMIT_PATTERNS.any fun p => strContains (strLower stderr_output) p)
  || events.any (fun e =>
      e.event_type == "error"
      && RATE_LIMIT_PATTERNS.any (fun p => strContains (strLower e.summary) p))

/-- Result of the timeout branch of `_monitor_agent`; `process_killed`
records the unconditional `agent.kill()` call. -/
structure TimeoutStep where
  world : World
  process_killed : Bool

/-- The timeout branch of `AgentPool._monitor_agent` (elapsed time past
`AGENT_TIMEOUT_SECONDS` while the process is alive): kill, record
`timeout` with its error message, release the workspace, return. -/
def monitorTimeout (ag : AgentMem) (now : Nat) (w : World) : TimeoutStep :=
  let w := setStore w (finish_agent w.store ag.agent_id "timeout" (some "Agent exceeded timeout") now)
  { world := cleanupWorktree ag.worktree_path w, process_killed := true }

/-- Answers of the external queries made by
`AgentPool._handle_implement_complete`: PR number found in the event stream
(`extract_pr_number`), PR found on the forge for the branch, branch-pushed
check, the two `gh pr create` attempts, local-commit check, push result. -/
structure Reconcile where
  pr_from_events : Option Nat := none
  pr_on_forge : Option Nat := none
  branch_pushed : Bool := false
  auto_pr_1 : Option Nat := none
  has_local_commits : Bool := false
  push_ok : Bool := false
  auto_pr_2 : Option Nat := none

/-- Shared tail of the success branches of `_handle_implement_complete`:
agent `completed` with the PR number, issue to `pr_created`, workspace
released. -/
def implementCompletedWith (ag : AgentMem) (pr_num : Nat) (now : Nat) (w : World) : World :=
  let w := setStore w (finish_agent w.store ag.agent_id "completed" none now)
  let w := setStore w (update_agent w.store ag.agent_id { pr_number := some pr_num })
  let w := setStore w (update_issue w.store ag.issue_number { status := some "pr_created", pr_number := some pr_num } now)
  cleanupWorktree ag.worktree_path w

/-- Step 5 of `_handle_implement_complete`: nothing useful was produced. -/
def implementFailedPath (ag : AgentMem) (now : Nat) (w : World) : World :=
  let w := setStore w (finish_agent w.store ag.agent_id "failed" (some "Agent finished without creating commits or PR") now)
  let w := setStore w (update_issue w.store ag.issue_number { status := some "pending" } now)
  cleanupWorktree ag.worktree_path w

/-- Steps 4–5 of `_handle_implement_complete`: push local commits if any and
try to create a PR, else fail. -/
def implementStep45 (ag : AgentMem) (rc : Reconcile) (now : Nat) (w : World) : World :=
  if rc.has_local_commits then
    if rc.push_ok then
      match rc.auto_pr_2 with
      | some p => implementCompletedWith ag p now w
      | none => implementFailedPath ag now w
    else implementFailedPath ag now w
  else implementFailedPath ag now w

/-- `AgentPool._handle_implement_complete`: decide whether the exit-0
implement worker actually produced a PR, recovering pushed branches and
unpushed commits before declaring failure. -/
def _handle_implement_complete (ag : AgentMem) (rc : Reconcile) (now : Nat) (w : World) : World :=
  match (match rc.pr_from_events with
         | some p => some p
         | none => rc.pr_on_forge) with
  | some p => implementCompletedWith ag p now w
  | none =>
    if rc.branch_pushed then
      match rc.auto_pr_1 with
      | some p => implementCompletedWith ag p now w
      | none => implementStep45 ag rc now w
    else implementStep45 ag rc now w

/-- The natural-exit tail of `AgentPool._monitor_agent` (after the polling
loop): count assistant turns, persist the session id if extracted, then
branch on exit code / rate-limit detection.  `session_id?` is the result of
`extract_session_id(agent.events)`. -/
def monitorFinished (ag : AgentMem) (return_code : Int) (stderr_output : String)
    (session_id? : Option String) (rc : Reconcile) (now : Nat) (w : World) : World :=
  let turns := (ag.events.filter fun e => e.event_type == "assistant").length
  let w := match session_id? with
    | some sid => setStore w (update_agent w.store ag.agent_id { session_id := some sid })
    | none => w
  if return_code = 0 then
    let w := setStore w (update_agent w.store ag.agent_id { turns_used := some turns })
    if ag.agent_type = "implement" then
      _handle_implement_complete ag rc now w
    else
      let w := setStore w (finish_agent w.store ag.agent_id "completed" none now)
      cleanupWorktree ag.worktree_path w
  else if _is_rate_limit_error stderr_output ag.events then
    let w := setStore w (update_agent w.store ag.agent_id { turns_used := some turns })
    let w := setStore w (finish_agent w.store ag.agent_id "rate_limited" (some (strTake stderr_output 500)) now)
    setStore w (update_agent w.store ag.agent_id { rate_limited_at := some now })
  else
    let error_msg := if stderr_output ≠ "" then strTake stderr_output 500
      else "Exit code " ++ toString return_code
    let w := setStore w (finish_agent w.store ag.agent_id "failed" (some error_msg) now)
    let w := setStore w (update_agent w.store ag.agent_id { turns_used := some turns })
    let w := if ag.agent_type = "implement" then
        setStore w (update_issue w.store ag.issue_number { status := some "pending" } now)
      else w
    cleanupWorktree ag.worktree_path w

/-- `AgentProcess._read_stream`: feed stdout lines through the decoder,
buffering each event and persisting it; a raised exception is caught by the
surrounding `try` and ends the loop. -/
def readStream (agent_id : String) (lines : List String) (now : Nat)
    (s : Store) (events : List AgentEvent) : Store × List AgentEvent :=
  match lines with
  | [] => (s, events)
  | line :: rest =>
    match parse_stream_line line with
    | .ok (some e) =>
      readStream agent_id rest now
        (insert_event s agent_id e.event_type (jsonDumps e.raw) now) (events ++ [e])
    | .ok none => readStream agent_id rest now s events
    | .error _ => (s, events)

/-- Outcomes of the external steps of `AgentPool.dispatch_implement`:
admission, repo update + worktree creation, subprocess spawn. -/
structure DispatchEnv where
  canDispatch : Bool := true
  worktreeOk : Bool := true
  spawnOk : Bool := true
  pid : Nat := 1000
deriving DecidableEq, Repr

/-- `worktree.create_worktree`: path `WORKTREE_DIR / issue-N`. -/
def worktreePathForIssue (issue_number : Nat) : String :=
  "worktrees/issue-" ++ toString issue_number

/-- `AgentPool.dispatch_implement`.  The `.error` result is the uncaught
`TypeError` from subscripting `db.get_issue(issue_number)` when no issue row
exists: it carries the world as already mutated (worktree created, agent row
inserted).  `.ok (w, none)` is a `return None`. -/
def dispatch_implement (env : DispatchEnv) (issue_number : Nat) (now : Nat)
    (w : World) : Except (PyError × World) (World × Option String) :=
  if ¬ env.canDispatch then .ok (w, none)
  else
    let agent_id := "agent-issue-" ++ toString issue_number ++ "-" ++ toString now
    let branch_name := "fix/issue-" ++ toString issue_number
    if ¬ env.worktreeOk then .ok (w, none)
    else
      let worktree_path := worktreePathForIssue issue_number
      let w := { w with worktrees := w.worktrees.filter (fun p => p ≠ worktree_path) ++ [worktree_path] }
      if ¬ env.spawnOk then .ok (cleanupWorktree worktree_path w, none)
      else
        let w := setStore w (create_agent w.store agent_id issue_number "implement" worktree_path branch_name none (some env.pid) now)
        match get_issue w.store issue_number with
        | none => .error (.typeError, w)
        | some issue =>
          let w := setStore w (update_issue w.store issue_number { status := some "in_progress", agent_id := some agent_id, attempts := some (issue.attempts + 1) } now)
          .ok (w, some agent_id)

/-- Outcomes of the external steps of `AgentPool.resume_rate_limited_agent`. -/
structure ResumeEnv where
  canDispatch : Bool := true
  spawnOk : Bool := true
  pid : Nat := 1000
deriving DecidableEq, Repr

/-- `AgentPool.resume_rate_limited_agent` over a persisted agent record.
Returns the new agent id, or none when admission, the resume ceiling, the
missing worktree, or the spawn stopped the resumption. -/
def resume_rate_limited_agent (cfg : Config) (env : ResumeEnv) (rec : AgentRow)
    (now : Nat) (w : World) : World × Option String :=
  if ¬ env.canDispatch then (w, none)
  else
    let resume_count := rec.resume_count.getD 0 + 1
    if cfg.MAX_RATE_LIMIT_RESUMES < resume_count then
      let w := setStore w (finish_agent w.store rec.agent_id "failed" (some "Exceeded max rate-limit resumes") now)
      let w := if rec.agent_type = "implement" then
          setStore w (update_issue w.store rec.issue_number { status := some "pending" } now)
        else w
      (cleanupWorktree rec.worktree_path w, none)
    else if ¬ w.worktrees.contains rec.worktree_path then
      let w := setStore w (finish_agent w.store rec.agent_id "failed" (some "Worktree lost during rate limit wait") now)
      let w := if rec.agent_type = "implement" then
          setStore w (update_issue w.store rec.issue_number { status := some "pending" } now)
        else w
      (w, none)
    else if ¬ env.spawnOk then (w, none)
    else
      let new_agent_id := "agent-resume-" ++ toString rec.issue_number ++ "-" ++ toString now
      let w := setStore w (update_agent w.store rec.agent_id { status := some "resumed" })
      let w := setStore w (create_agent w.store new_agent_id rec.issue_number rec.agent_type rec.worktree_path rec.branch_name rec.pr_number (some env.pid) now)
      let w := setStore w (update_agent w.store new_agent_id { resume_count := some resume_count })
      let w := setStore w (update_issue w.store rec.issue_number { agent_id := some new_agent_id } now)
      (w, some new_agent_id)

/-- One comment of a review thread as assembled by
`pr_monitor.get_unresolved_threads`. -/
structure ReviewComment where
  body : String
  author : String
deriving DecidableEq, Repr

/-- One unresolved review thread (`path`, `line`, `comments`) as assembled
by `pr_monitor.get_unresolved_threads`. -/
structure ReviewThread where
  path : String := "unknown"
  line : Option Nat := none
  comments : List ReviewComment := []
deriving DecidableEq, Repr

def reviewCommentJson (c : ReviewComment) : Json :=
  .obj [("body", .str c.body), ("author", .str c.author)]

def reviewThreadJson (t : ReviewThread) : Json :=
  .obj [("path", .str t.path),
        ("line", match t.line with | some n => .num (toString n) | none => .null),
        ("comments", .arr (t.comments.map reviewCommentJson))]

/-- `json.dumps(unresolved_threads)` as stored into `comments_json`. -/
def serializeThreads (ts : List ReviewThread) : String :=
  jsonDumps (.arr (ts.map reviewThreadJson))

/-- One REST inline comment (`get_pr_comments`), reduced to the fields
`_poll_prs` reads; the forge is assumed to return well-formed comment
objects. -/
structure RestComment where
  body : String := ""
  path : String := "unknown"
  line : Option Nat := none
  author : String := "unknown"
deriving DecidableEq, Repr

def restCommentThreadJson (c : RestComment) : Json :=
  .obj [("path", .str c.path),
        ("line", match c.line with | some n => .num (toString n) | none => .null),
        ("comments", .arr [.obj [("body", .str c.body), ("author", .str c.author)]])]

def serializeRestThreads (cs : List RestComment) : String :=
  jsonDumps (.arr (cs.map restCommentThreadJson))

/-- One CI check (`get_pr_checks` JSON fields `name`, `state`, `bucket`). -/
structure CiCheck where
  name : String := ""
  state : String := ""
  bucket : String := ""
deriving DecidableEq, Repr

/-- The forge answers one `_poll_prs` iteration consumes for one PR:
CI checks, the structural (GraphQL) unresolved-thread query (`none` when it
failed), the REST comments, and the head-branch lookup. -/
structure ForgeView where
  checks : List CiCheck := []
  unresolved_threads : Option (List ReviewThread) := none
  comments : List RestComment := []
  branch_name : Option String := none
deriving DecidableEq, Repr

/-- Result of handling one issue inside `PRMonitor._poll_prs`:
the mutated world, the remembered last-comment-count entry for the PR after
the step, whether `_label_needs_human` was called, and whether (and with
which thread list) the fix-dispatch callback was called. -/
structure PollResult where
  world : World
  last_comment_count : Nat
  labeled_needs_human : Bool := false
  dispatched_fix : Option (Option (List ReviewThread)) := none
deriving DecidableEq, Repr

/-- The body of the `for issue in issues_with_prs` loop of
`PRMonitor._poll_prs` for a single issue row (the row was selected by
`get_issues_by_status` on `pr_created`).  `prev_count` is the
remembered comment count for the PR, defaulting to 0. -/
def pollPrIssueStep (cfg : Config) (fv : ForgeView) (issue : IssueRow)
    (prev_count : Nat) (now : Nat) (w : World) : PollResult :=
  if issue.pr_number.getD 0 = 0 then
    { world := w, last_comment_count := prev_count }
  else
    let pr_number := issue.pr_number.getD 0
    let iteration_count := (get_pr_reviews w.store pr_number).length
    if cfg.MAX_PR_FIX_RETRIES ≤ iteration_count then
      let w := setStore w (update_issue w.store issue.issue_number { status := some "needs_human" } now)
      { world := w, last_comment_count := prev_count, labeled_needs_human := true }
    else
      let has_running_fix := (get_running_agents w.store).any fun a =>
        a.pr_number == some pr_number && a.agent_type == "fix_review"
      if has_running_fix then { world := w, last_comment_count := prev_count }
      else if fv.checks.isEmpty then { world := w, last_comment_count := prev_count }
      else
        let ci_pending := fv.checks.any fun c =>
          c.state == "PENDING" || c.bucket == "pending"
        if ci_pending then { world := w, last_comment_count := prev_count }
        else
          let ci_failed := fv.checks.any fun c =>
            c.bucket == "fail" || c.state == "FAILURE" || c.state == "ERROR"
          match fv.unresolved_threads with
          | some threads =>
            let unresolved_count := threads.length
            if unresolved_count = 0 ∧ ci_failed = false then
              let w := setStore w (update_issue w.store issue.issue_number { status := some "resolved" } now)
              { world := w, last_comment_count := prev_count }
            else if 0 < unresolved_count ∨ ci_failed = true then
              let w := setStore w (create_pr_review w.store pr_number (iteration_count + 1) unresolved_count (some (serializeThreads threads)) now)
              match fv.branch_name with
              | none => { world := w, last_comment_count := prev_count }
              | some _ =>
                { world := w, last_comment_count := prev_count,
                  dispatched_fix := some (some threads) }
            else { world := w, last_comment_count := prev_count }
          | none =>
            let new_comment_count := fv.comments.length
            if new_comment_count = 0 ∧ ci_failed = false then
              let w := setStore w (update_issue w.store issue.issue_number { status := some "resolved" } now)
              { world := w, last_comment_count := prev_count }
            else if prev_count < new_comment_count ∨ ci_failed = true then
              let comments_json := if fv.comments.isEmpty then none
                else some (serializeRestThreads fv.comments)
              let w := setStore w (create_pr_review w.store pr_number (iteration_count + 1) new_comment_count comments_json now)
              match fv.branch_name with
              | none => { world := w, last_comment_count := new_comment_count }
              | some _ =>
                { world := w, last_comment_count := new_comment_count,
                  dispatched_fix := some none }
            else if 0 < prev_count ∧ new_comment_count ≤ prev_count ∧ ci_failed = false then
              let w := setStore w (update_issue w.store issue.issue_number { status := some "resolved" } now)
              { world := w, last_comment_count := prev_count }
            else { world := w, last_comment_count := prev_count }

/- Concrete instances used by counterexamples and witnesses. -/

def cfgDefault : Config := {}

def agC1 : AgentMem :=
  { agent_id := "agent-issue-7-0", issue_number := 7, agent_type := "implement",
    worktree_path := "worktrees/issue-7" }

def agentRowC1 : AgentRow :=
  { agent_id := "agent-issue-7-0", issue_number := 7, agent_type := "implement",
    worktree_path := "worktrees/issue-7", branch_name := "fix/issue-7" }

def issueC1 : IssueRow :=
  { issue_number := 7, title := "t", status := "in_progress",
    agent_id := some "agent-issue-7-0", attempts := 1 }

def wC1 : World :=
  { store := { issues := [issueC1], agents := [agentRowC1] },
    worktrees := ["worktrees/issue-7"] }

def agC2 : AgentMem :=
  { agent_id := "a2", issue_number := 2, agent_type := "implement",
    worktree_path := "worktrees/issue-2" }

def agentRowC2 : AgentRow :=
  { agent_id := "a2", issue_number := 2, agent_type := "implement",
    worktree_path := "worktrees/issue-2", branch_name := "fix/issue-2" }

def issueC2 : IssueRow :=
  { issue_number := 2, title := "t", status := "in_progress", attempts := 1 }

def wC2 : World :=
  { store := { issues := [issueC2], agents := [agentRowC2] },
    worktrees := ["worktrees/issue-2"] }

def evC3 : AgentEvent :=
  { event_type := "assistant", summary := "working",
    raw := Json.obj [("type", Json.str "assistant")] }

def agC3 : AgentMem :=
  { agent_id := "a3", issue_number := 3, agent_type := "implement",
    worktree_path := "worktrees/issue-3", events := [evC3] }

def agentRowC3 : AgentRow :=
  { agent_id := "a3", issue_number := 3, agent_type := "implement",
    worktree_path := "worktrees/issue-3", branch_name := "fix/issue-3" }

def eventRowC3 : EventRow :=
  { id := 1, agent_id := "a3", event_type := "assistant",
    event_data := "x", timestamp := 1 }

def wC3 : World :=
  { store := { issues := [{ issue_number := 3, title := "t", status := "in_progress" }],
               agents := [agentRowC3], agent_events := [eventRowC3] },
    worktrees := ["worktrees/issue-3"] }

def agC3b : AgentMem :=
  { agent_id := "a3", issue_number := 3, agent_type := "fix_review",
    worktree_path := "worktrees/pr-fix-3", pr_number := some 3, events := [evC3] }

def issueC4 : IssueRow :=
  { issue_number := 4, title := "t", status := "pending", attempts := 1 }

def wC4 : World := { store := { issues := [issueC4] } }

def recC4 : AgentRow :=
  { agent_id := "old4", issue_number := 4, agent_type := "implement",
    status := "rate_limited", worktree_path := "worktrees/issue-4",
    branch_name := "fix/issue-4", resume_count := some 0 }

def wC4r : World :=
  { store := { issues := [issueC4], agents := [recC4] },
    worktrees := ["worktrees/issue-4"] }

def checksPass : List CiCheck :=
  [{ name := "ci", state := "SUCCESS", bucket := "pass" }]

def fvC5 : ForgeView := { checks := checksPass, unresolved_threads := some [] }

def issueC5 : IssueRow :=
  { issue_number := 5, title := "t", status := "pr_created", pr_number := some 9 }

def reviewRowC5 (i : Nat) : PrReviewRow :=
  { id := i, pr_number := 9, iteration := i, comments_count := 1 }

def wC5 : World :=
  { store := { issues := [issueC5],
               pr_reviews := [reviewRowC5 1, reviewRowC5 2, reviewRowC5 3,
                              reviewRowC5 4, reviewRowC5 5] } }

def threadC5 : ReviewThread :=
  { path := "a.py", line := some 10, comments := [{ body := "fix this", author := "rev" }] }

def fvC5b : ForgeView :=
  { checks := checksPass, unresolved_threads := some [threadC5],
    branch_name := some "fix/issue-5" }

def wC5b : World := { store := { issues := [issueC5] } }

def fvC6 : ForgeView := { checks := checksPass, unresolved_threads := some [] }

def issueC6 : IssueRow :=
  { issue_number := 6, title := "t", status := "pr_created", pr_number := some 11 }

def reviewRowC6 (i : Nat) : PrReviewRow :=
  { id := i, pr_number := 11, iteration := i, comments_count := 0 }

def wC6 : World :=
  { store := { issues := [issueC6],
               pr_reviews := [reviewRowC6 1, reviewRowC6 2, reviewRowC6 3,
                              reviewRowC6 4, reviewRowC6 5] } }

def recC7 : AgentRow :=
  { agent_id := "old7", issue_number := 17, agent_type := "implement",
    status := "rate_limited", worktree_path := "worktrees/issue-17",
    branch_name := "fix/issue-17", resume_count := some 5 }

def issueC7 : IssueRow :=
  { issue_number := 17, title := "t", status := "in_progress" }

def wC7 : World :=
  { store := { issues := [issueC7], agents := [recC7] },
    worktrees := ["worktrees/issue-17"] }

def sC9 : Store :=
  { issues := [{ issue_number := 1, title := "a", status := "in_progress" }] }

def wC10 : World :=
  { store := { issues := [{ issue_number := 10, title := "t", status := "pending",
                            attempts := 2 }] } }

def wC10b : World := { store := {} }

/-- The agent row recorded by the timeout branch. -/
def timeoutRow (now : Nat) (a : AgentRow) : AgentRow :=
  { a with status := "timeout", finished_at := some now, error_message := some "Agent exceeded timeout" }

/-- The updates `implementCompletedWith` performs on the agent row. -/
def completedUpd (p now : Nat) (a : AgentRow) : AgentRow :=
  apply_agent_update { pr_number := some p } (apply_agent_update { status := some "completed", finished_at := some now, error_message := some none } a)

/-- The update `implementFailedPath` performs on the agent row. -/
def failedUpd (now : Nat) (a : AgentRow) : AgentRow :=
  apply_agent_update { status := some "failed", finished_at := some now, error_message := some (some "Agent finished without creating commits or PR") } a

/- ===================== Theorems ===================== -/

theorem setStore_store_eq (w : World) (s : Store) : (setStore w s).store = s := rfl

theorem setStore_worktrees_eq (w : World) (s : Store) :
    (setStore w s).worktrees = w.worktrees := rfl

theorem cleanupWorktree_store_eq (p : String) (w : World) :
    (cleanupWorktree p w).store = w.store := rfl

theorem update_agent_issues_eq (s : Store) (aid : String) (u : AgentUpdate) :
    (update_agent s aid u).issues = s.issues := rfl

theorem update_agent_events_eq (s : Store) (aid : String) (u : AgentUpdate) :
    (update_agent s aid u).agent_events = s.agent_events := rfl

theorem update_agent_reviews_eq (s : Store) (aid : String) (u : AgentUpdate) :
    (update_agent s aid u).pr_reviews = s.pr_reviews := rfl

theorem update_issue_agents_eq (s : Store) (n : Nat) (u : IssueUpdate) (now : Nat) :
    (update_issue s n u now).agents = s.agents := rfl

theorem update_issue_events_eq (s : Store) (n : Nat) (u : IssueUpdate) (now : Nat) :
    (update_issue s n u now).agent_events = s.agent_events := rfl

theorem update_issue_reviews_eq (s : Store) (n : Nat) (u : IssueUpdate) (now : Nat) :
    (update_issue s n u now).pr_reviews = s.pr_reviews := rfl

theorem create_agent_issues_eq (s : Store) (aid : String) (n : Nat)
    (ty wt br : String) (pr pid : Option Nat) (now : Nat) :
    (create_agent s aid n ty wt br pr pid now).issues = s.issues := rfl

theorem create_agent_events_eq (s : Store) (aid : String) (n : Nat)
    (ty wt br : String) (pr pid : Option Nat) (now : Nat) :
    (create_agent s aid n ty wt br pr pid now).agent_events = s.agent_events := rfl

theorem create_pr_review_issues_eq (s : Store) (pr it cc : Nat)
    (cj : Option String) (now : Nat) :
    (create_pr_review s pr it cc cj now).issues = s.issues := rfl

theorem create_pr_review_agents_eq (s : Store) (pr it cc : Nat)
    (cj : Option String) (now : Nat) :
    (create_pr_review s pr it cc cj now).agents = s.agents := rfl

/-- A map that rewrites exactly the rows satisfying `q`, by a function that
preserves `q`, commutes with `find?` on `q`. -/
theorem find_map_upd {α : Type} (q : α → Prop) [DecidablePred q] (f : α → α)
    (hf : ∀ a, q a → q (f a)) (l : List α) :
    (l.map fun a => if q a then f a else a).find? (fun a => decide (q a))
      = (l.find? fun a => decide (q a)).map f := by
  induction l with
  | nil => rfl
  | cons x xs ih =>
    by_cases hx : q x
    · have hfx : q (f x) := hf x hx
      simp only [List.map_cons, if_pos hx]
      rw [List.find?_cons_of_pos _ (by simpa using hfx),
          List.find?_cons_of_pos _ (by simpa using hx)]
      rfl
    · simp only [List.map_cons, if_neg hx]
      rw [List.find?_cons_of_neg _ (by simpa using hx),
          List.find?_cons_of_neg _ (by simpa using hx), ih]

theorem apply_agent_update_id_eq (u : AgentUpdate) (a : AgentRow) :
    (apply_agent_update u a).agent_id = a.agent_id := rfl

theorem get_agent_update (s : Store) (aid : String) (u : AgentUpdate) :
    get_agent (update_agent s aid u) aid = (get_agent s aid).map (apply_agent_update u) := by
  unfold get_agent update_agent
  exact find_map_upd (fun r => r.agent_id = aid) (apply_agent_update u)
    (fun a h => by
      show (apply_agent_update u a).agent_id = aid
      rw [apply_agent_update_id_eq]
      exact h) s.agents

theorem apply_issue_update_num_eq (u : IssueUpdate) (now : Nat) (r : IssueRow) :
    (apply_issue_update u now r).issue_number = r.issue_number := rfl

theorem get_issue_update (s : Store) (n : Nat) (u : IssueUpdate) (now : Nat) :
    get_issue (update_issue s n u now) n = (get_issue s n).map (apply_issue_update u now) := by
  unfold get_issue update_issue
  exact find_map_upd (fun r => r.issue_number = n) (apply_issue_update u now)
    (fun a h => by
      show (apply_issue_update u now a).issue_number = n
      rw [apply_issue_update_num_eq]
      exact h) s.issues

/-- C8: as stated the claim is false.  `parse_stream_line` on the line `[1]`
— valid JSON, not a JSON object — raises `AttributeError` at
`data.get("type", "unknown")` instead of yielding no event. -/
theorem C8_counterexample :
    parse_stream_line "[1]" = Except.error PyError.attributeError
    ∧ Except.error PyError.attributeError ≠ (Except.ok none : Except PyError (Option AgentEvent)) := by
  constructor
  · rfl
  · intro h
    cases h

/-- C8 (amended): every line that is empty after stripping, or that fails
JSON decoding, yields no event; but a line that decodes to a JSON value
that is not an object raises `AttributeError` (from the first attribute
access) rather than yielding no event. -/
theorem C8_parse_total_classification (line : String) :
    (pyStrip line = "" → parse_stream_line line = .ok none)
    ∧ (pyStrip line ≠ "" → json_loads (pyStrip line) = none → parse_stream_line line = .ok none)
    ∧ (∀ j, json_loads (pyStrip line) = some j → (∀ kvs, j ≠ Json.obj kvs) →
        parse_stream_line line = .error .attributeError) := by
  refine ⟨?_, ?_, ?_⟩
  · intro h
    unfold parse_stream_line
    rw [if_pos h]
  · intro hne hload
    unfold parse_stream_line
    rw [if_neg hne, hload]
  · intro j hload hnobj
    have hne : pyStrip line ≠ "" := by
      intro h
      rw [h] at hload
      have : json_loads "" = none := rfl
      rw [this] at hload
      cases hload
    unfold parse_stream_line
    rw [if_neg hne, hload]
    cases j with
    | obj kvs => exact absurd rfl (hnobj kvs)
    | null => rfl
    | bool b => rfl
    | num t => rfl
    | str s => rfl
    | arr xs => rfl

/-- C8 witness: the classification applied at an all-blank line, a
non-JSON line, and a JSON-array line. -/
theorem C8_parse_total_classification_witness :
    parse_stream_line "  " = .ok none
    ∧ parse_stream_line "not json" = .ok none
    ∧ parse_stream_line "[1]" = .error .attributeError := by
  refine ⟨(C8_parse_total_classification "  ").1 (by rfl), ?_, ?_⟩
  · exact (C8_parse_total_classification "not json").2.1 (by decide) (by rfl)
  · exact (C8_parse_total_classification "[1]").2.2 (Json.arr [Json.num "1"]) (by rfl)
      (fun kvs h => Json.noConfusion h)

/-- C9: as stated the claim is false.  `upsert_issue` onto an existing row
updates only `title` and `updated_at`: writing status `pending` over an
existing `in_progress` row and reading back returns `in_progress`, not the
written status (the title does round-trip). -/
theorem C9_counterexample :
    (get_issue (upsert_issue sC9 1 "b" "pending" 9) 1).map IssueRow.status = some "in_progress"
    ∧ ((some "in_progress" : Option String) ≠ some "pending")
    ∧ (get_issue (upsert_issue sC9 1 "b" "pending" 9) 1).map IssueRow.title = some "b" := by
  decide

/-- C9 (amended): writing an Issue with `upsert_issue` and reading it back
with `get_issue` yields a row whose title is the written title, and whose
status is the written status when no row existed, but the pre-existing
status when one did (conflict updates only title and `updated_at`). -/
theorem C9_upsert_roundtrip (s : Store) (n : Nat) (t st : String) (now : Nat) :
    ∃ r, get_issue (upsert_issue s n t st now) n = some r
      ∧ r.title = t
      ∧ r.status = (match get_issue s n with | some old => old.status | none => st) := by
  unfold upsert_issue
  by_cases h : s.issues.any (fun r => r.issue_number = n)
  · rw [if_pos h]
    have hs : ∃ x ∈ s.issues, (fun r => decide (r.issue_number = n)) x = true := by
      simpa using h
    have hfind : (s.issues.find? fun r => decide (r.issue_number = n)).isSome := by
      rw [List.find?_isSome]
      exact hs
    obtain ⟨old, hold⟩ := Option.isSome_iff_exists.mp hfind
    have hmap : get_issue { s with issues := s.issues.map fun r =>
        if r.issue_number = n then { r with title := t, updated_at := now } else r } n
        = (get_issue s n).map fun r => { r with title := t, updated_at := now } := by
      unfold get_issue
      exact find_map_upd (fun r => r.issue_number = n)
        (fun r => { r with title := t, updated_at := now }) (fun a ha => ha) s.issues
    refine ⟨{ old with title := t, updated_at := now }, ?_, rfl, ?_⟩
    · rw [hmap]
      unfold get_issue
      rw [hold]
      rfl
    · show old.status = _
      unfold get_issue
      rw [hold]
  · rw [if_neg h]
    have hnone : s.issues.find? (fun r => decide (r.issue_number = n)) = none := by
      rw [List.find?_eq_none]
      intro x hx
      simp only [List.any_eq_true, not_exists, not_and] at h
      simpa using h x hx
    refine ⟨{ issue_number := n, title := t, status := st,
               created_at := now, updated_at := now }, ?_, rfl, ?_⟩
    · unfold get_issue
      rw [List.find?_append, hnone, Option.none_or]
      rw [List.find?_cons_of_pos _ (by simp)]
    · show st = _
      unfold get_issue
      rw [hnone]
theorem get_agent_update_issue (s : Store) (n : Nat) (u : IssueUpdate) (now : Nat)
    (aid : String) : get_agent (update_issue s n u now) aid = get_agent s aid := rfl

theorem get_issue_update_agent (s : Store) (aid : String) (u : AgentUpdate)
    (n : Nat) : get_issue (update_agent s aid u) n = get_issue s n := rfl

/-- C1: as stated the claim is false.  On timeout the monitor kills the
process, records `timeout` and releases the workspace, but it never touches
the issues table: an issue left `in_progress` stays `in_progress` instead of
being set to `pending`. -/
theorem C1_counterexample :
    (get_issue (monitorTimeout agC1 100 wC1).world.store 7).map IssueRow.status
      = some "in_progress"
    ∧ ((some "in_progress" : Option String) ≠ some "pending")
    ∧ (get_agent (monitorTimeout agC1 100 wC1).world.store "agent-issue-7-0").map AgentRow.status
      = some "timeout" := by
  decide

/-- C1 (amended): past the timeout the monitor kills the process, records
the worker as `timeout` with its error message, and releases its workspace;
the issues table — in particular the status of the associated issue — is
left unchanged. -/
theorem C1_timeout_step (ag : AgentMem) (now : Nat) (w : World) (a : AgentRow)
    (ha : get_agent w.store ag.agent_id = some a) :
    (monitorTimeout ag now w).process_killed = true
    ∧ get_agent (monitorTimeout ag now w).world.store ag.agent_id = some (timeoutRow now a)
    ∧ (monitorTimeout ag now w).world.store.issues = w.store.issues
    ∧ ag.worktree_path ∉ (monitorTimeout ag now w).world.worktrees := by
  refine ⟨rfl, ?_, rfl, ?_⟩
  · show get_agent (finish_agent w.store ag.agent_id "timeout"
        (some "Agent exceeded timeout") now) ag.agent_id = _
    rw [finish_agent, get_agent_update, ha]
    rfl
  · simp [monitorTimeout, cleanupWorktree, setStore, List.mem_filter]

/-- C1 witness: the timeout step applied to a concrete running implement
worker. -/
theorem C1_timeout_step_witness :
    (monitorTimeout agC1 100 wC1).process_killed = true
    ∧ get_agent (monitorTimeout agC1 100 wC1).world.store "agent-issue-7-0"
        = some (timeoutRow 100 agentRowC1)
    ∧ (monitorTimeout agC1 100 wC1).world.store.issues = wC1.store.issues
    ∧ "worktrees/issue-7" ∉ (monitorTimeout agC1 100 wC1).world.worktrees := by
  exact C1_timeout_step agC1 100 wC1 agentRowC1 (by decide)

/-- C2: on non-zero exit with a rate-limit pattern matching stderr or an
error-event summary, the worker is marked `rate_limited` with
`rate_limited_at = now`, its truncated stderr and its counted turns; the
workspace is not released and the issues table (status field and attempts
counter included) is unchanged. -/
theorem C2_rate_limited_postmortem (ag : AgentMem) (rc : Int) (stderr : String)
    (sid : Option String) (orc : Reconcile) (now : Nat) (w : World) (a : AgentRow)
    (hrc : rc ≠ 0) (hrl : _is_rate_limit_error stderr ag.events = true)
    (ha : get_agent w.store ag.agent_id = some a) :
    ∃ row, get_agent (monitorFinished ag rc stderr sid orc now w).store ag.agent_id = some row
      ∧ row.status = "rate_limited"
      ∧ row.rate_limited_at = some now
      ∧ row.error_message = some (strTake stderr 500)
      ∧ row.turns_used = (ag.events.filter fun e => e.event_type == "assistant").length
      ∧ (monitorFinished ag rc stderr sid orc now w).store.issues = w.store.issues
      ∧ (monitorFinished ag rc stderr sid orc now w).worktrees = w.worktrees := by
  cases sid with
  | none =>
    simp only [monitorFinished, setStore, finish_agent]
    rw [if_neg hrc, if_pos hrl]
    rw [get_agent_update, get_agent_update, get_agent_update, ha]
    exact ⟨_, rfl, rfl, rfl, rfl, rfl, rfl, rfl⟩
  | some s =>
    simp only [monitorFinished, setStore, finish_agent]
    rw [if_neg hrc, if_pos hrl]
    rw [get_agent_update, get_agent_update, get_agent_update, get_agent_update, ha]
    exact ⟨_, rfl, rfl, rfl, rfl, rfl, rfl, rfl⟩

/-- C2 witness: a concrete implement worker exiting 1 with stderr `429`. -/
theorem C2_rate_limited_postmortem_witness :
    (∃ row, get_agent (monitorFinished agC2 1 "429" none {} 50 wC2).store "a2" = some row
      ∧ row.status = "rate_limited"
      ∧ row.rate_limited_at = some 50
      ∧ row.error_message = some (strTake "429" 500)
      ∧ row.turns_used = (agC2.events.filter fun e => e.event_type == "assistant").length
      ∧ (monitorFinished agC2 1 "429" none {} 50 wC2).store.issues = wC2.store.issues
      ∧ (monitorFinished agC2 1 "429" none {} 50 wC2).worktrees = wC2.worktrees) := by
  exact C2_rate_limited_postmortem agC2 1 "429" none {} 50 wC2 agentRowC2
    (by decide) (by decide) (by decide)

theorem completedWith_agent_row (ag : AgentMem) (p now : Nat) (w : World) :
    get_agent (implementCompletedWith ag p now w).store ag.agent_id
      = (get_agent w.store ag.agent_id).map (completedUpd p now) := by
  simp only [implementCompletedWith, finish_agent, setStore, cleanupWorktree]
  rw [get_agent_update_issue, get_agent_update, get_agent_update, Option.map_map]
  rfl

theorem failedPath_agent_row (ag : AgentMem) (now : Nat) (w : World) :
    get_agent (implementFailedPath ag now w).store ag.agent_id
      = (get_agent w.store ag.agent_id).map (failedUpd now) := by
  simp only [implementFailedPath, finish_agent, setStore, cleanupWorktree]
  rw [get_agent_update_issue, get_agent_update]
  rfl

theorem handle_agent_row (ag : AgentMem) (orc : Reconcile) (now : Nat) (w : World)
    (a : AgentRow) (ha : get_agent w.store ag.agent_id = some a) :
    ∃ row, get_agent (_handle_implement_complete ag orc now w).store ag.agent_id = some row
      ∧ (row.status = "completed" ∨ row.status = "failed")
      ∧ row.turns_used = a.turns_used := by
  unfold _handle_implement_complete implementStep45
  split
  · rw [completedWith_agent_row, ha]
    exact ⟨_, rfl, Or.inl rfl, rfl⟩
  · split
    · split
      · rw [completedWith_agent_row, ha]
        exact ⟨_, rfl, Or.inl rfl, rfl⟩
      · split
        · split
          · split
            · rw [completedWith_agent_row, ha]
              exact ⟨_, rfl, Or.inl rfl, rfl⟩
            · rw [failedPath_agent_row, ha]
              exact ⟨_, rfl, Or.inr rfl, rfl⟩
          · rw [failedPath_agent_row, ha]
            exact ⟨_, rfl, Or.inr rfl, rfl⟩
        · rw [failedPath_agent_row, ha]
          exact ⟨_, rfl, Or.inr rfl, rfl⟩
    · split
      · split
        · split
          · rw [completedWith_agent_row, ha]
            exact ⟨_, rfl, Or.inl rfl, rfl⟩
          · rw [failedPath_agent_row, ha]
            exact ⟨_, rfl, Or.inr rfl, rfl⟩
        · rw [failedPath_agent_row, ha]
          exact ⟨_, rfl, Or.inr rfl, rfl⟩
      · rw [failedPath_agent_row, ha]
        exact ⟨_, rfl, Or.inr rfl, rfl⟩

theorem handle_events_eq (ag : AgentMem) (orc : Reconcile) (now : Nat) (w : World) :
    (_handle_implement_complete ag orc now w).store.agent_events = w.store.agent_events := by
  unfold _handle_implement_complete implementStep45 implementCompletedWith implementFailedPath
  repeat first
  | rfl
  | split

theorem monitorFinished_events_eq (ag : AgentMem) (rc : Int) (stderr : String)
    (sid : Option String) (orc : Reconcile) (now : Nat) (w : World) :
    (monitorFinished ag rc stderr sid orc now w).store.agent_events = w.store.agent_events := by
  cases sid with
  | none =>
    simp only [monitorFinished, setStore, finish_agent]
    repeat first
    | rfl
    | rw [handle_events_eq]
    | split
  | some s =>
    simp only [monitorFinished, setStore, finish_agent]
    repeat first
    | rfl
    | rw [handle_events_eq]
    | split

/-- C3: as stated the claim is false.  The timeout branch never persists
`turns_used`: a timed-out worker with one recorded assistant event keeps
`turns_used = 0` while its recorded assistant-event count is 1, so at
terminal status `timeout` the two disagree. -/
theorem C3_counterexample :
    (get_agent (monitorTimeout agC3 100 wC3).world.store "a3").map AgentRow.status
      = some "timeout"
    ∧ (get_agent (monitorTimeout agC3 100 wC3).world.store "a3").map AgentRow.turns_used
      = some 0
    ∧ get_agent_turn_count (monitorTimeout agC3 100 wC3).world.store "a3" = 1
    ∧ (0 : Nat) ≠ 1 := by
  decide

/-- C3 (amended): when the monitor observes a natural exit — so the worker
ends `completed`, `failed` or `rate_limited` — the persisted `turns_used`
equals the number of assistant events recorded for the worker, provided the
recorded events match the in-memory buffer (the reader invariant).  The
`timeout` status is excluded: that branch never writes `turns_used`. -/
theorem C3_turns_persisted (ag : AgentMem) (rc : Int) (stderr : String)
    (sid : Option String) (orc : Reconcile) (now : Nat) (w : World) (a : AgentRow)
    (ha : get_agent w.store ag.agent_id = some a)
    (hdb : get_agent_turn_count w.store ag.agent_id
           = (ag.events.filter fun e => e.event_type == "assistant").length) :
    ∃ row, get_agent (monitorFinished ag rc stderr sid orc now w).store ag.agent_id = some row
      ∧ (row.status = "completed" ∨ row.status = "failed" ∨ row.status = "rate_limited")
      ∧ row.turns_used
          = get_agent_turn_count (monitorFinished ag rc stderr sid orc now w).store ag.agent_id := by
  have hcount : get_agent_turn_count (monitorFinished ag rc stderr sid orc now w).store ag.agent_id
      = (ag.events.filter fun e => e.event_type == "assistant").length := by
    unfold get_agent_turn_count
    rw [monitorFinished_events_eq]
    exact hdb
  rw [hcount]
  cases sid with
  | none =>
    simp only [monitorFinished, setStore, finish_agent, cleanupWorktree]
    by_cases h0 : rc = 0
    · rw [if_pos h0]
      by_cases himpl : ag.agent_type = "implement"
      · rw [if_pos himpl]
        obtain ⟨row, hrow, hst, hturn⟩ := handle_agent_row ag orc now
          ⟨update_agent w.store ag.agent_id { turns_used := some ((ag.events.filter fun e => e.event_type == "assistant").length) }, w.worktrees⟩
          (apply_agent_update { turns_used := some ((ag.events.filter fun e => e.event_type == "assistant").length) } a)
          (by rw [get_agent_update, ha]; rfl)
        refine ⟨row, hrow, ?_, hturn⟩
        rcases hst with h | h
        · exact Or.inl h
        · exact Or.inr (Or.inl h)
      · rw [if_neg himpl]
        dsimp only
        rw [get_agent_update, get_agent_update, ha]
        exact ⟨_, rfl, Or.inl rfl, rfl⟩
    · rw [if_neg h0]
      by_cases hrl : _is_rate_limit_error stderr ag.events = true
      · rw [if_pos hrl]
        rw [get_agent_update, get_agent_update, get_agent_update, ha]
        exact ⟨_, rfl, Or.inr (Or.inr rfl), rfl⟩
      · rw [if_neg hrl]
        by_cases himpl : ag.agent_type = "implement"
        · rw [if_pos himpl]
          dsimp only
          rw [get_agent_update_issue, get_agent_update, get_agent_update, ha]
          exact ⟨_, rfl, Or.inr (Or.inl rfl), rfl⟩
        · rw [if_neg himpl]
          dsimp only
          rw [get_agent_update, get_agent_update, ha]
          exact ⟨_, rfl, Or.inr (Or.inl rfl), rfl⟩
  | some s =>
    simp only [monitorFinished, setStore, finish_agent, cleanupWorktree]
    by_cases h0 : rc = 0
    · rw [if_pos h0]
      by_cases himpl : ag.agent_type = "implement"
      · rw [if_pos himpl]
        obtain ⟨row, hrow, hst, hturn⟩ := handle_agent_row ag orc now
          ⟨update_agent (update_agent w.store ag.agent_id { session_id := some s }) ag.agent_id { turns_used := some ((ag.events.filter fun e => e.event_type == "assistant").length) }, w.worktrees⟩
          (apply_agent_update { turns_used := some ((ag.events.filter fun e => e.event_type == "assistant").length) } (apply_agent_update { session_id := some s } a))
          (by rw [get_agent_update, get_agent_update, ha]; rfl)
        refine ⟨row, hrow, ?_, hturn⟩
        rcases hst with h | h
        · exact Or.inl h
        · exact Or.inr (Or.inl h)
      · rw [if_neg himpl]
        dsimp only
        rw [get_agent_update, get_agent_update, get_agent_update, ha]
        exact ⟨_, rfl, Or.inl rfl, rfl⟩
    · rw [if_neg h0]
      by_cases hrl : _is_rate_limit_error stderr ag.events = true
      · rw [if_pos hrl]
        rw [get_agent_update, get_agent_update, get_agent_update, get_agent_update, ha]
        exact ⟨_, rfl, Or.inr (Or.inr rfl), rfl⟩
      · rw [if_neg hrl]
        by_cases himpl : ag.agent_type = "implement"
        · rw [if_pos himpl]
          dsimp only
          rw [get_agent_update_issue, get_agent_update, get_agent_update, get_agent_update, ha]
          exact ⟨_, rfl, Or.inr (Or.inl rfl), rfl⟩
        · rw [if_neg himpl]
          dsimp only
          rw [get_agent_update, get_agent_update, get_agent_update, ha]
          exact ⟨_, rfl, Or.inr (Or.inl rfl), rfl⟩

/-- C3 witness: a fix-review worker exiting 0 with one assistant event both
in memory and in the store. -/
theorem C3_turns_persisted_witness :
    (get_agent (monitorFinished agC3b 0 "" none {} 60 wC3).store "a3").map AgentRow.turns_used
      = some (get_agent_turn_count (monitorFinished agC3b 0 "" none {} 60 wC3).store "a3") := by
  obtain ⟨row, hrow, hst, hturn⟩ :=
    C3_turns_persisted agC3b 0 "" none {} 60 wC3 agentRowC3 (by decide) (by decide)
  have hrow2 : get_agent (monitorFinished agC3b 0 "" none {} 60 wC3).store "a3" = some row := hrow
  have hturn2 : row.turns_used
      = get_agent_turn_count (monitorFinished agC3b 0 "" none {} 60 wC3).store "a3" := hturn
  rw [hrow2]
  exact congrArg some hturn2

theorem get_issue_create_agent (s : Store) (aid : String) (m : Nat)
    (ty wt br : String) (pr pid : Option Nat) (now : Nat) (n : Nat) :
    get_issue (create_agent s aid m ty wt br pr pid now) n = get_issue s n := rfl

theorem update_issue_attempts_map (s : Store) (n : Nat) (u : IssueUpdate) (now : Nat)
    (h : u.attempts = none) :
    ((update_issue s n u now).issues.map fun r => r.attempts)
      = s.issues.map fun r => r.attempts := by
  unfold update_issue
  rw [List.map_map]
  apply List.map_congr_left
  intro r _
  by_cases hr : r.issue_number = n
  · simp [Function.comp, hr, apply_issue_update, h]
  · simp [Function.comp, hr]

theorem get_agent_create_fresh (s : Store) (aid : String) (m : Nat)
    (ty wt br : String) (pr pid : Option Nat) (now : Nat)
    (h : get_agent s aid = none) :
    get_agent (create_agent s aid m ty wt br pr pid now) aid
      = some { agent_id := aid, issue_number := m, pr_number := pr, agent_type := ty, worktree_path := wt, branch_name := br, pid := pid, started_at := now } := by
  unfold get_agent create_agent
  unfold get_agent at h
  rw [List.find?_append, h, Option.none_or, List.find?_cons_of_pos _ (by simp)]

/-- C4: an implement-dispatch that reaches persistence increments the
attempts counter of the issue by exactly one, and a resumption of a
rate-limited worker never changes any attempts counter (in any of its
branches). -/
theorem C4_attempts_discipline :
    (∀ (env : DispatchEnv) (n now : Nat) (w : World) (i : IssueRow),
      env.canDispatch = true → env.worktreeOk = true → env.spawnOk = true →
      get_issue w.store n = some i →
      ∃ w', dispatch_implement env n now w
          = .ok (w', some ("agent-issue-" ++ toString n ++ "-" ++ toString now))
        ∧ ∃ r', get_issue w'.store n = some r'
            ∧ r'.attempts = i.attempts + 1 ∧ r'.status = "in_progress")
    ∧ (∀ (cfg : Config) (env : ResumeEnv) (rec : AgentRow) (now : Nat) (w : World),
      ((resume_rate_limited_agent cfg env rec now w).1.store.issues.map fun r => r.attempts)
        = w.store.issues.map fun r => r.attempts) := by
  constructor
  · intro env n now w i hc hw hs hi
    simp only [dispatch_implement, setStore]
    rw [if_neg (fun h => h hc), if_neg (fun h => h hw), if_neg (fun h => h hs)]
    rw [get_issue_create_agent, hi]
    refine ⟨_, rfl, ?_⟩
    rw [get_issue_update, get_issue_create_agent, hi]
    exact ⟨_, rfl, rfl, rfl⟩
  · intro cfg env rec now w
    simp only [resume_rate_limited_agent, setStore, cleanupWorktree]
    split
    · rfl
    · split
      · split
        · rw [update_issue_attempts_map _ _ _ _ rfl]
          rfl
        · rfl
      · split
        · split
          · rw [update_issue_attempts_map _ _ _ _ rfl]
            rfl
          · rfl
        · split
          · rfl
          · rw [update_issue_attempts_map _ _ _ _ rfl]
            rfl

/-- C4 witness: a concrete dispatch over an existing issue with one prior
attempt, and a concrete resumption. -/
theorem C4_attempts_discipline_witness :
    (∃ w', dispatch_implement {} 4 100 wC4
        = .ok (w', some ("agent-issue-" ++ toString 4 ++ "-" ++ toString 100))
      ∧ ∃ r', get_issue w'.store 4 = some r'
          ∧ r'.attempts = issueC4.attempts + 1 ∧ r'.status = "in_progress")
    ∧ ((resume_rate_limited_agent cfgDefault {} recC4 100 wC4r).1.store.issues.map fun r => r.attempts)
        = wC4r.store.issues.map fun r => r.attempts := by
  obtain ⟨ha, hb⟩ := C4_attempts_discipline
  exact ⟨ha {} 4 100 wC4 issueC4 rfl rfl rfl (by decide), hb cfgDefault {} recC4 100 wC4r⟩

/-- C7: when the pool has capacity and a persisted rate-limited worker has
already used up its resumes (resume_count + 1 exceeds the ceiling, which
includes resume_count equal to the ceiling), the resume call returns no
agent id, marks the old worker `failed` with the ceiling message, resets
the issue to `pending` exactly when the worker is an implement worker, and
releases the workspace. -/
theorem C7_resume_ceiling (cfg : Config) (env : ResumeEnv) (rec : AgentRow)
    (now : Nat) (w : World) (a : AgentRow)
    (hcap : env.canDispatch = true)
    (hcount : cfg.MAX_RATE_LIMIT_RESUMES < rec.resume_count.getD 0 + 1)
    (ha : get_agent w.store rec.agent_id = some a) :
    (resume_rate_limited_agent cfg env rec now w).2 = none
    ∧ get_agent (resume_rate_limited_agent cfg env rec now w).1.store rec.agent_id
        = some (apply_agent_update { status := some "failed", finished_at := some now, error_message := some (some "Exceeded max rate-limit resumes") } a)
    ∧ (rec.agent_type = "implement" →
        (resume_rate_limited_agent cfg env rec now w).1.store.issues
          = w.store.issues.map (fun r => if r.issue_number = rec.issue_number then apply_issue_update { status := some "pending" } now r else r))
    ∧ (rec.agent_type ≠ "implement" →
        (resume_rate_limited_agent cfg env rec now w).1.store.issues = w.store.issues)
    ∧ rec.worktree_path ∉ (resume_rate_limited_agent cfg env rec now w).1.worktrees := by
  simp only [resume_rate_limited_agent, setStore]
  rw [if_neg (fun h => h hcap), if_pos hcount]
  by_cases himpl : rec.agent_type = "implement"
  · rw [if_pos himpl]
    refine ⟨rfl, ?_, fun _ => rfl, fun h => absurd himpl h, ?_⟩
    · show get_agent (update_issue (finish_agent w.store rec.agent_id "failed"
          (some "Exceeded max rate-limit resumes") now) rec.issue_number
          { status := some "pending" } now) rec.agent_id = _
      rw [get_agent_update_issue, finish_agent, get_agent_update, ha]
      rfl
    · simp [cleanupWorktree, List.mem_filter]
  · rw [if_neg himpl]
    refine ⟨rfl, ?_, fun h => absurd h himpl, fun _ => rfl, ?_⟩
    · show get_agent (finish_agent w.store rec.agent_id "failed"
          (some "Exceeded max rate-limit resumes") now) rec.agent_id = _
      rw [finish_agent, get_agent_update, ha]
      rfl
    · simp [cleanupWorktree, List.mem_filter]

/-- C7 witness: a rate-limited implement worker with resume_count equal to
the default ceiling of 5. -/
theorem C7_resume_ceiling_witness :
    (resume_rate_limited_agent cfgDefault {} recC7 70 wC7).2 = none
    ∧ get_agent (resume_rate_limited_agent cfgDefault {} recC7 70 wC7).1.store recC7.agent_id
        = some (apply_agent_update { status := some "failed", finished_at := some 70, error_message := some (some "Exceeded max rate-limit resumes") } recC7)
    ∧ (recC7.agent_type = "implement" →
        (resume_rate_limited_agent cfgDefault {} recC7 70 wC7).1.store.issues
          = wC7.store.issues.map (fun r => if r.issue_number = recC7.issue_number then apply_issue_update { status := some "pending" } 70 r else r))
    ∧ (recC7.agent_type ≠ "implement" →
        (resume_rate_limited_agent cfgDefault {} recC7 70 wC7).1.store.issues = wC7.store.issues)
    ∧ recC7.worktree_path ∉ (resume_rate_limited_agent cfgDefault {} recC7 70 wC7).1.worktrees := by
  exact C7_resume_ceiling cfgDefault {} recC7 70 wC7 recC7 rfl (by decide) (by decide)

/-- C10: `dispatch_implement` presupposes the issue row exists.  With the
row present the read-modify-write of attempts succeeds; with it absent the
call raises TypeError — after the subprocess was spawned and the worker row
created (the row carries the spawned pid) — instead of returning none, and
no issue row is created. -/
theorem C10_dispatch_presupposes_issue (env : DispatchEnv) (n now : Nat) (w : World)
    (hc : env.canDispatch = true) (hw : env.worktreeOk = true) (hs : env.spawnOk = true) :
    (∀ i, get_issue w.store n = some i →
      ∃ w', dispatch_implement env n now w
          = .ok (w', some ("agent-issue-" ++ toString n ++ "-" ++ toString now))
        ∧ ∃ r', get_issue w'.store n = some r' ∧ r'.attempts = i.attempts + 1)
    ∧ (get_issue w.store n = none →
       get_agent w.store ("agent-issue-" ++ toString n ++ "-" ++ toString now) = none →
      ∃ w', dispatch_implement env n now w = .error (.typeError, w')
        ∧ (∃ arow, get_agent w'.store ("agent-issue-" ++ toString n ++ "-" ++ toString now) = some arow
            ∧ arow.pid = some env.pid ∧ arow.agent_type = "implement")
        ∧ get_issue w'.store n = none) := by
  constructor
  · intro i hi
    simp only [dispatch_implement, setStore]
    rw [if_neg (fun h => h hc), if_neg (fun h => h hw), if_neg (fun h => h hs)]
    rw [get_issue_create_agent, hi]
    refine ⟨_, rfl, ?_⟩
    rw [get_issue_update, get_issue_create_agent, hi]
    exact ⟨_, rfl, rfl⟩
  · intro hnone hfresh
    simp only [dispatch_implement, setStore]
    rw [if_neg (fun h => h hc), if_neg (fun h => h hw), if_neg (fun h => h hs)]
    rw [get_issue_create_agent, hnone]
    refine ⟨_, rfl, ?_, ?_⟩
    · exact ⟨_, get_agent_create_fresh _ _ _ _ _ _ _ _ _ hfresh, rfl, rfl⟩
    · rw [get_issue_create_agent]
      exact hnone

/-- C10 witness: the dispatch applied once over a store holding issue 10
and once over an empty store. -/
theorem C10_dispatch_presupposes_issue_witness :
    (∃ w', dispatch_implement {} 10 100 wC10
        = .ok (w', some ("agent-issue-" ++ toString 10 ++ "-" ++ toString 100))
      ∧ ∃ r', get_issue w'.store 10 = some r' ∧ r'.attempts = 2 + 1)
    ∧ (∃ w', dispatch_implement {} 10 100 wC10b = .error (.typeError, w')
        ∧ (∃ arow, get_agent w'.store ("agent-issue-" ++ toString 10 ++ "-" ++ toString 100) = some arow
            ∧ arow.pid = some (1000 : Nat) ∧ arow.agent_type = "implement")
        ∧ get_issue w'.store 10 = none) := by
  constructor
  · exact (C10_dispatch_presupposes_issue {} 10 100 wC10 rfl rfl rfl).1
      { issue_number := 10, title := "t", status := "pending", attempts := 2 } (by decide)
  · exact (C10_dispatch_presupposes_issue {} 10 100 wC10b rfl rfl rfl).2 (by decide) (by decide)

/-- C6: an issue in `pr_created` whose PR already carries at least
`MAX_PR_FIX_RETRIES` recorded review iterations is transitioned to
`needs_human`, the `needs-human` label call is made, and no fix worker is
dispatched; no new review row is inserted. -/
theorem C6_retry_ceiling_escalates (cfg : Config) (fv : ForgeView) (issue : IssueRow)
    (prev now : Nat) (w : World) (pr : Nat)
    (hpr : issue.pr_number = some pr) (hpr0 : pr ≠ 0)
    (hceil : cfg.MAX_PR_FIX_RETRIES ≤ (get_pr_reviews w.store pr).length) :
    (pollPrIssueStep cfg fv issue prev now w).world.store.issues
      = w.store.issues.map (fun r => if r.issue_number = issue.issue_number then apply_issue_update { status := some "needs_human" } now r else r)
    ∧ (pollPrIssueStep cfg fv issue prev now w).labeled_needs_human = true
    ∧ (pollPrIssueStep cfg fv issue prev now w).dispatched_fix = none
    ∧ (pollPrIssueStep cfg fv issue prev now w).world.store.pr_reviews = w.store.pr_reviews := by
  simp only [pollPrIssueStep, setStore]
  rw [hpr]
  dsimp only [Option.getD]
  rw [if_neg hpr0, if_pos hceil]
  exact ⟨rfl, rfl, rfl, rfl⟩

/-- C6 witness: issue 6 with PR 11 carrying 5 recorded iterations under the
default ceiling of 5. -/
theorem C6_retry_ceiling_escalates_witness :
    (pollPrIssueStep cfgDefault fvC6 issueC6 0 80 wC6).world.store.issues
      = wC6.store.issues.map (fun r => if r.issue_number = issueC6.issue_number then apply_issue_update { status := some "needs_human" } 80 r else r)
    ∧ (pollPrIssueStep cfgDefault fvC6 issueC6 0 80 wC6).labeled_needs_human = true
    ∧ (pollPrIssueStep cfgDefault fvC6 issueC6 0 80 wC6).dispatched_fix = none
    ∧ (pollPrIssueStep cfgDefault fvC6 issueC6 0 80 wC6).world.store.pr_reviews = wC6.store.pr_reviews := by
  exact C6_retry_ceiling_escalates cfgDefault fvC6 issueC6 0 80 wC6 11 rfl (by decide) (by decide)

/-- C5: as stated the claim is false.  For an issue in `pr_created` with CI
checks present, none pending, CI not failed, and a successful structural
query returning no unresolved threads, the poll does not resolve the issue
when the review-iteration count has already reached the ceiling: it
escalates to `needs_human` instead. -/
theorem C5_counterexample :
    fvC5.unresolved_threads = some []
    ∧ (fvC5.checks.any fun c => c.bucket == "fail" || c.state == "FAILURE" || c.state == "ERROR") = false
    ∧ fvC5.checks.isEmpty = false
    ∧ (fvC5.checks.any fun c => c.state == "PENDING" || c.bucket == "pending") = false
    ∧ ((pollPrIssueStep cfgDefault fvC5 issueC5 0 90 wC5).world.store.issues.map IssueRow.status = ["needs_human"])
    ∧ ("needs_human" : String) ≠ "resolved" := by
  decide

/-- C5 (amended): for an issue in `pr_created` whose PR has CI checks
present, none pending, and a successful structural query — provided the
review-iteration count is still below the ceiling and no fix worker is
already running for the PR — an empty thread list with CI not failed
resolves the issue; otherwise a new review iteration row (iteration =
previous count + 1, storing the serialized thread list) is inserted and a
fix worker is dispatched with those threads exactly when the branch lookup
succeeds. -/
theorem C5_graphql_review_flow (cfg : Config) (fv : ForgeView) (issue : IssueRow)
    (prev now : Nat) (w : World) (pr : Nat) (ts : List ReviewThread)
    (hpr : issue.pr_number = some pr) (hpr0 : pr ≠ 0)
    (hceil : (get_pr_reviews w.store pr).length < cfg.MAX_PR_FIX_RETRIES)
    (hrun : ((get_running_agents w.store).any fun a => a.pr_number == some pr && a.agent_type == "fix_review") = false)
    (hchecks : fv.checks.isEmpty = false)
    (hpend : (fv.checks.any fun c => c.state == "PENDING" || c.bucket == "pending") = false)
    (hthreads : fv.unresolved_threads = some ts) :
    (ts = [] → (fv.checks.any fun c => c.bucket == "fail" || c.state == "FAILURE" || c.state == "ERROR") = false →
      (pollPrIssueStep cfg fv issue prev now w).world.store.issues
        = w.store.issues.map (fun r => if r.issue_number = issue.issue_number then apply_issue_update { status := some "resolved" } now r else r)
      ∧ (pollPrIssueStep cfg fv issue prev now w).world.store.pr_reviews = w.store.pr_reviews
      ∧ (pollPrIssueStep cfg fv issue prev now w).dispatched_fix = none)
    ∧ ((ts ≠ [] ∨ (fv.checks.any fun c => c.bucket == "fail" || c.state == "FAILURE" || c.state == "ERROR") = true) →
      (pollPrIssueStep cfg fv issue prev now w).world.store.pr_reviews
        = w.store.pr_reviews ++ [{ id := w.store.pr_reviews.length + 1, pr_number := pr, iteration := (get_pr_reviews w.store pr).length + 1, comments_count := ts.length, comments_json := some (serializeThreads ts), created_at := now }]
      ∧ (∀ b, fv.branch_name = some b → (pollPrIssueStep cfg fv issue prev now w).dispatched_fix = some (some ts))
      ∧ (fv.branch_name = none → (pollPrIssueStep cfg fv issue prev now w).dispatched_fix = none)
      ∧ (pollPrIssueStep cfg fv issue prev now w).world.store.issues = w.store.issues) := by
  have hprep :
      pollPrIssueStep cfg fv issue prev now w
        = (let ci_failed := fv.checks.any fun c => c.bucket == "fail" || c.state == "FAILURE" || c.state == "ERROR"
           if ts.length = 0 ∧ ci_failed = false then
             { world := setStore w (update_issue w.store issue.issue_number { status := some "resolved" } now), last_comment_count := prev }
           else if 0 < ts.length ∨ ci_failed = true then
             (let w2 := setStore w (create_pr_review w.store pr ((get_pr_reviews w.store pr).length + 1) ts.length (some (serializeThreads ts)) now)
              match fv.branch_name with
              | none => { world := w2, last_comment_count := prev }
              | some _ => { world := w2, last_comment_count := prev, dispatched_fix := some (some ts) })
           else { world := w, last_comment_count := prev }) := by
    simp only [pollPrIssueStep, setStore]
    rw [hpr]
    dsimp only [Option.getD]
    rw [if_neg hpr0, if_neg (Nat.not_le.mpr hceil), if_neg (by simp [hrun]),
        if_neg (by simp [hchecks]), if_neg (by simp [hpend]), hthreads]
  rw [hprep]
  constructor
  · intro h1 h2
    rw [if_pos ⟨by rw [h1]; rfl, h2⟩]
    exact ⟨rfl, rfl, rfl⟩
  · intro h
    have hneg : ¬ (ts.length = 0 ∧ (fv.checks.any fun c => c.bucket == "fail" || c.state == "FAILURE" || c.state == "ERROR") = false) := by
      rcases h with h | h
      · exact fun hh => h (List.length_eq_zero.mp hh.1)
      · intro hh
        rw [h] at hh
        simp at hh
    have hposs : 0 < ts.length ∨ (fv.checks.any fun c => c.bucket == "fail" || c.state == "FAILURE" || c.state == "ERROR") = true := by
      rcases h with h | h
      · exact Or.inl (List.length_pos.mpr h)
      · exact Or.inr h
    rw [if_neg hneg, if_pos hposs]
    cases hbn : fv.branch_name with
    | none => exact ⟨rfl, fun b hb => Option.noConfusion hb, fun _ => rfl, rfl⟩
    | some b0 => exact ⟨rfl, fun b hb => rfl, fun hn => Option.noConfusion hn, rfl⟩

/-- C5 witness: the resolve path with zero unresolved threads, and the
iterate-and-dispatch path with one unresolved thread and a known branch. -/
theorem C5_graphql_review_flow_witness :
    ((pollPrIssueStep cfgDefault fvC5 issueC5 0 90 wC5b).world.store.issues
        = wC5b.store.issues.map (fun r => if r.issue_number = issueC5.issue_number then apply_issue_update { status := some "resolved" } 90 r else r)
      ∧ (pollPrIssueStep cfgDefault fvC5 issueC5 0 90 wC5b).world.store.pr_reviews = wC5b.store.pr_reviews
      ∧ (pollPrIssueStep cfgDefault fvC5 issueC5 0 90 wC5b).dispatched_fix = none)
    ∧ ((pollPrIssueStep cfgDefault fvC5b issueC5 0 90 wC5b).world.store.pr_reviews
        = wC5b.store.pr_reviews ++ [{ id := wC5b.store.pr_reviews.length + 1, pr_number := 9, iteration := (get_pr_reviews wC5b.store 9).length + 1, comments_count := [threadC5].length, comments_json := some (serializeThreads [threadC5]), created_at := 90 }]
      ∧ (pollPrIssueStep cfgDefault fvC5b issueC5 0 90 wC5b).dispatched_fix = some (some [threadC5])) := by
  constructor
  · exact (C5_graphql_review_flow cfgDefault fvC5 issueC5 0 90 wC5b 9 [] rfl
      (by decide) (by decide) (by decide) (by decide) (by decide) rfl).1 rfl (by decide)
  · obtain ⟨hrev, hdisp, _, _⟩ := (C5_graphql_review_flow cfgDefault fvC5b issueC5 0 90 wC5b 9 [threadC5] rfl
      (by decide) (by decide) (by decide) (by decide) (by decide) rfl).2 (Or.inl (by decide))
    exact ⟨hrev, hdisp "fix/issue-5" rfl⟩
